import Mathlib

set_option maxHeartbeats 1000000

/-!
Shallow embedding of the Readverse backend (src/main.py with the schema
declarations of src/schemas.py).  Documents are modelled per entity as Lean
records mirroring the pydantic schemas, a collection is a list of such
records, and each HTTP route handler becomes a pure function returning the
response outcome, the collection after the request, and a flag recording
whether the database was touched while handling the request.  The persistence
layer (database.py) is absent from src/, so its two generic operations are
modelled from the specification where noted.
-/

namespace Readverse

/-- Test for a hexadecimal digit, as accepted by BSON ObjectId parsing. -/
def isHexDigit (c : Char) : Bool :=
  c.isDigit || ('a' ≤ c && c ≤ 'f') || ('A' ≤ c && c ≤ 'F')

/-- Syntactic validity of an ObjectId string: the helper oid (src/main.py
lines 41-45) calls ObjectId(id_str), which succeeds exactly on 24-character
hexadecimal strings, and turns a parse failure into HTTP 400. -/
def isValidOid (s : String) : Bool :=
  s.length == 24 && s.toList.all isHexDigit

/-- Canonical (lowercase) hex form of a parsed ObjectId, as produced by
str(ObjectId(s)); stored document ids are in this form. -/
def oidCanon (s : String) : String := ⟨s.toList.map Char.toLower⟩

/-- Outcome of a route handler: a JSON body (HTTP 200) or an HTTPException
carrying a status code and detail message. -/
inductive Outcome (α : Type) where
  | ok (body : α)
  | httpError (status : Nat) (detail : String)
  deriving DecidableEq, Repr

/-- Status code of an outcome: none for a 200 body. -/
def Outcome.statusOf : Outcome α → Option Nat
  | .ok _ => none
  | .httpError s _ => some s

/-- Full effect of handling one request: the response, the relevant
collection afterwards, and whether the database was accessed. -/
structure RouteOut (δ α : Type) where
  resp : Outcome α
  db : δ
  dbAccessed : Bool
  deriving DecidableEq, Repr

/-! ### Stored documents, one record type per collection (src/schemas.py).
Every stored document additionally carries the database id (lowercase hex,
field named after the entity) and the server-assigned created_at timestamp
added by the persistence layer at insert time. -/

/-- Stored document of the "user" collection (schema User). -/
structure UserDoc where
  uid : String
  handle : String
  email : String
  avatar_url : Option String
  bio : Option String
  favorite_genres : List String
  created_at : Nat
  deriving DecidableEq, Repr

/-- Stored document of the "book" collection (schema Book). -/
structure BookDoc where
  bid : String
  title : String
  creator : String
  kind : String
  cover_url : Option String
  description : Option String
  genres : List String
  moods : List String
  total_pages : Option Int
  tags : List String
  created_at : Nat
  deriving DecidableEq, Repr

/-- Stored document of the "shelf" collection (schema Shelf). -/
structure ShelfDoc where
  sid : String
  user_id : String
  name : String
  description : Option String
  book_ids : List String
  created_at : Nat
  deriving DecidableEq, Repr

/-- Stored document of the "readingprogress" collection (schema
ReadingProgress). -/
structure ProgressDoc where
  prid : String
  user_id : String
  book_id : String
  current_page : Int
  total_pages : Option Int
  started_on : Option String
  finished_on : Option String
  status : String
  created_at : Nat
  deriving DecidableEq, Repr

/-- Stored document of the "review" collection (schema Review). -/
structure ReviewDoc where
  rvid : String
  user_id : String
  book_id : String
  rating : Int
  title : Option String
  body : Option String
  created_at : Nat
  deriving DecidableEq, Repr

/-- Stored document of the "quote" collection (schema Quote). -/
structure QuoteDoc where
  qtid : String
  user_id : String
  book_id : String
  text : String
  page : Option Int
  created_at : Nat
  deriving DecidableEq, Repr

/-- Stored document of the "post" collection (schema Post). -/
structure PostDoc where
  poid : String
  club_id : String
  user_id : String
  content : String
  created_at : Nat
  deriving DecidableEq, Repr

/-! ### Creation payloads and their pydantic field constraints.
Typing and required-field checks are absorbed by parsing into the record; the
declared numeric Field bounds become the explicit validity predicates. -/

/-- Parsed creation payload for POST /books (schema Book, defaults applied). -/
structure BookIn where
  title : String
  creator : String
  kind : String
  cover_url : Option String := none
  description : Option String := none
  genres : List String := []
  moods : List String := []
  total_pages : Option Int := none
  tags : List String := []
  deriving DecidableEq, Repr

/-- Declared numeric bound of schema Book: total_pages has ge=1 when given. -/
def bookInValid (b : BookIn) : Bool :=
  match b.total_pages with
  | some t => decide (1 ≤ t)
  | none => true

/-- Parsed creation payload for POST /progress (schema ReadingProgress,
defaults applied: current_page 0, status "reading"). -/
structure ReadingProgressIn where
  user_id : String
  book_id : String
  current_page : Int := 0
  total_pages : Option Int := none
  started_on : Option String := none
  finished_on : Option String := none
  status : String := "reading"
  deriving DecidableEq, Repr

/-- Declared numeric bounds of schema ReadingProgress: current_page has ge=0
and total_pages has ge=1 when given. -/
def progressInValid (p : ReadingProgressIn) : Bool :=
  decide (0 ≤ p.current_page) &&
    (match p.total_pages with
     | some t => decide (1 ≤ t)
     | none => true)

/-! ### Partial-update payloads (BookUpdate, ProgressUpdate in src/main.py).
Every field is Optional with default None and carries no Field bound; a null
field and an absent field both parse to none, matching
model_dump(exclude_none=True) dropping them from the update map. -/

/-- Payload of PATCH /books/{id} (class BookUpdate, src/main.py 113-122). -/
structure BookUpdate where
  title : Option String := none
  creator : Option String := none
  kind : Option String := none
  cover_url : Option String := none
  description : Option String := none
  genres : Option (List String) := none
  moods : Option (List String) := none
  total_pages : Option Int := none
  tags : Option (List String) := none
  deriving DecidableEq, Repr

/-- Declared validation of BookUpdate: every field is a plain Optional with
no numeric bound, so every well-typed payload passes. -/
def bookUpdateValid (_ : BookUpdate) : Bool := true

/-- Emptiness of the sparse update map built by model_dump(exclude_none=True)
over a BookUpdate payload. -/
def BookUpdate.isEmptyUpd (p : BookUpdate) : Bool :=
  p.title.isNone && p.creator.isNone && p.kind.isNone && p.cover_url.isNone &&
    p.description.isNone && p.genres.isNone && p.moods.isNone &&
    p.total_pages.isNone && p.tags.isNone

/-- Effect of applying the non-none fields of a BookUpdate to a stored book
via a $set update. -/
def applyBookUpdate (p : BookUpdate) (b : BookDoc) : BookDoc :=
  { b with
    title := p.title.getD b.title
    creator := p.creator.getD b.creator
    kind := p.kind.getD b.kind
    cover_url := match p.cover_url with | some v => some v | none => b.cover_url
    description := match p.description with | some v => some v | none => b.description
    genres := p.genres.getD b.genres
    moods := p.moods.getD b.moods
    total_pages := match p.total_pages with | some v => some v | none => b.total_pages
    tags := p.tags.getD b.tags }

/-- Payload of PATCH /progress/{id} (class ProgressUpdate, src/main.py
184-187). -/
structure ProgressUpdate where
  current_page : Option Int := none
  status : Option String := none
  total_pages : Option Int := none
  deriving DecidableEq, Repr

/-- Declared validation of ProgressUpdate: every field is a plain Optional
with no numeric bound, so every well-typed payload passes. -/
def progressUpdateValid (_ : ProgressUpdate) : Bool := true

/-- Emptiness of the sparse update map built by model_dump(exclude_none=True)
over a ProgressUpdate payload. -/
def ProgressUpdate.isEmptyUpd (p : ProgressUpdate) : Bool :=
  p.current_page.isNone && p.status.isNone && p.total_pages.isNone

/-- Effect of applying the non-none fields of a ProgressUpdate to a stored
progress document via a $set update. -/
def applyProgressUpdate (p : ProgressUpdate) (d : ProgressDoc) : ProgressDoc :=
  { d with
    current_page := p.current_page.getD d.current_page
    status := p.status.getD d.status
    total_pages := match p.total_pages with | some v => some v | none => d.total_pages }

/-! ### Single-document write primitives of the document database. -/

/-- Semantics of collection.update_one({_id: k}, upd): the first document
whose id equals k is replaced by f applied to it; matched counts the match,
modified counts it only when the document actually changed. -/
def updateOneBy [DecidableEq α] (idOf : α → String) (k : String) (f : α → α) :
    List α → List α × Nat × Nat
  | [] => ([], 0, 0)
  | x :: xs =>
    if idOf x == k then
      let x' := f x
      (x' :: xs, 1, if x' = x then 0 else 1)
    else
      let r := updateOneBy idOf k f xs
      (x :: r.1, r.2.1, r.2.2)

/-- Semantics of collection.delete_one({_id: k}): the first document whose id
equals k is removed and counted. -/
def deleteOneBy (idOf : α → String) (k : String) : List α → List α × Nat
  | [] => ([], 0)
  | x :: xs =>
    if idOf x == k then (xs, 1)
    else
      let r := deleteOneBy idOf k xs
      (x :: r.1, r.2)

/-- Semantics of the $addToSet update on the book_ids array of a shelf: the
value is appended only when not already present. -/
def addBookToShelf (book_id : String) (s : ShelfDoc) : ShelfDoc :=
  if book_id ∈ s.book_ids then s
  else { s with book_ids := s.book_ids ++ [book_id] }

/-! ### Id-addressed route handlers (src/main.py). -/

/-- Handler of GET /books/:id (get_book, src/main.py 105-110): the id is
parsed before the find_one call; 404 when no document matches.  The output
projection to_public is modelled separately and omitted here. -/
def get_book (book_id : String) (db : List BookDoc) :
    RouteOut (List BookDoc) BookDoc :=
  if isValidOid book_id then
    match db.find? (fun b => b.bid == oidCanon book_id) with
    | some b => ⟨.ok b, db, true⟩
    | none => ⟨.httpError 404 "Book not found", db, true⟩
  else ⟨.httpError 400 "Invalid id", db, false⟩

/-- Handler of PATCH /books/:id (update_book, src/main.py 125-133): an empty
update map short-circuits to updated 0 before the id is parsed; otherwise the
id is parsed before the update_one call, 404 when nothing matched, and the
body reports modified_count. -/
def update_book (book_id : String) (payload : BookUpdate) (db : List BookDoc) :
    RouteOut (List BookDoc) Nat :=
  if payload.isEmptyUpd then ⟨.ok 0, db, false⟩
  else if isValidOid book_id then
    let r := updateOneBy BookDoc.bid (oidCanon book_id) (applyBookUpdate payload) db
    if r.2.1 = 0 then ⟨.httpError 404 "Book not found", r.1, true⟩
    else ⟨.ok r.2.2, r.1, true⟩
  else ⟨.httpError 400 "Invalid id", db, false⟩

/-- Handler of DELETE /books/:id (delete_book, src/main.py 136-141): the id
is parsed before the delete_one call; 404 when nothing was deleted. -/
def delete_book (book_id : String) (db : List BookDoc) :
    RouteOut (List BookDoc) Nat :=
  if isValidOid book_id then
    let r := deleteOneBy BookDoc.bid (oidCanon book_id) db
    if r.2 = 0 then ⟨.httpError 404 "Book not found", r.1, true⟩
    else ⟨.ok 1, r.1, true⟩
  else ⟨.httpError 400 "Invalid id", db, false⟩

/-- Handler of POST /shelves/:id/add (shelf_add_book, src/main.py 158-163):
the shelf id is parsed before the update_one with $addToSet; 404 when no
shelf matched.  The Bool body stands for the ok flag of the response. -/
def shelf_add_book (shelf_id book_id : String) (db : List ShelfDoc) :
    RouteOut (List ShelfDoc) Bool :=
  if isValidOid shelf_id then
    let r := updateOneBy ShelfDoc.sid (oidCanon shelf_id) (addBookToShelf book_id) db
    if r.2.1 = 0 then ⟨.httpError 404 "Shelf not found", r.1, true⟩
    else ⟨.ok true, r.1, true⟩
  else ⟨.httpError 400 "Invalid id", db, false⟩

/-- Handler of PATCH /progress/:id (update_progress, src/main.py 190-198):
same shape as update_book. -/
def update_progress (progress_id : String) (payload : ProgressUpdate)
    (db : List ProgressDoc) : RouteOut (List ProgressDoc) Nat :=
  if payload.isEmptyUpd then ⟨.ok 0, db, false⟩
  else if isValidOid progress_id then
    let r := updateOneBy ProgressDoc.prid (oidCanon progress_id)
      (applyProgressUpdate payload) db
    if r.2.1 = 0 then ⟨.httpError 404 "Progress not found", r.1, true⟩
    else ⟨.ok r.2.2, r.1, true⟩
  else ⟨.httpError 400 "Invalid id", db, false⟩

/-! ### Query filters and list endpoints.
The generic query operation of the persistence layer lives in database.py,
which is not part of src/; it is modelled from the specification.  Each
handler builds its filter map with Python truthiness (an absent parameter and
an empty string both leave the filter out), which the optEq/optRegex helpers
reproduce. -/

/-- Modelled from the spec: get_documents of the persistence layer
(database.py, absent from src/) queries the named collection with the filter
map and returns up to limit matching documents in natural (insertion)
order. -/
def get_documents (db : List α) (filt : α → Bool) (limit : Nat) : List α :=
  (db.filter filt).take limit

/-- Equality filter guarded by Python truthiness: a handler adds the field to
the filter map only when the parameter is neither None nor the empty
string. -/
def optEq (param : Option String) (v : String) : Bool :=
  match param with
  | none => true
  | some s => if s.isEmpty then true else v == s

/-! ### Mongo $regex with the i option, for the q filter of list_books.
The query string is passed to $regex unescaped.  The fragment modelled here
covers patterns built from literal characters and the any-character atom
written as a dot; no theorem instantiates a pattern using metacharacters
outside this fragment. -/

/-- Atom of the modelled regex fragment. -/
inductive RAtom where
  | anyChar
  | lit (c : Char)
  deriving DecidableEq, Repr

/-- Parse of a pattern string within the modelled fragment: a dot becomes the
any-character atom, every other character a literal. -/
def parseR (s : List Char) : List RAtom :=
  s.map fun c => if c = '.' then RAtom.anyChar else RAtom.lit c

/-- Match of one atom against one subject character, case-insensitively (the
i option). -/
def atomMatch : RAtom → Char → Bool
  | .anyChar, _ => true
  | .lit c, d => c.toLower == d.toLower

/-- Match of a whole pattern against the beginning of the subject. -/
def matchesAt : List RAtom → List Char → Bool
  | [], _ => true
  | _ :: _, [] => false
  | a :: p, c :: s => atomMatch a c && matchesAt p s

/-- Unanchored regex search: the pattern may match starting at any position
of the subject. -/
def searchMatch (p : List RAtom) : List Char → Bool
  | [] => matchesAt p []
  | c :: s => matchesAt p (c :: s) || searchMatch p s

/-- Semantics of the filter entry title: regex q, options i built by
list_books: an unanchored case-insensitive regex search of q in the title. -/
def regexIMatch (q title : String) : Bool :=
  searchMatch (parseR q.toList) title.toList

/-- Regex filter guarded by Python truthiness, as built for the q parameter
of list_books. -/
def optRegex (param : Option String) (title : String) : Bool :=
  match param with
  | none => true
  | some s => if s.isEmpty then true else regexIMatch s title

/-- Characters with a reserved meaning in the regex dialect the q parameter
reaches; a query string avoiding all of them is interpreted literally. -/
def regexMeta : List Char :=
  ['.', '*', '+', '?', '[', ']', '(', ')', '{', '}', '|', '^', '$', '\\']

/-- Handler of GET /users (list_users, src/main.py 80-84). -/
def list_users (db : List UserDoc) (handle : Option String) : List UserDoc :=
  get_documents db (fun u => optEq handle u.handle) 100

/-- Handler body of GET /books (list_books, src/main.py 94-102), after the
limit parameter passed framework validation. -/
def list_books (db : List BookDoc) (kind q : Option String) (limit : Nat) :
    List BookDoc :=
  get_documents db (fun b => optEq kind b.kind && optRegex q b.title) limit

/-- Framework-level validation of the limit query parameter declared
Query(100, ge=1, le=200): FastAPI rejects an out-of-range value with its
default 422 validation error before the handler (and hence the database) is
reached; an absent parameter defaults to 100. -/
def list_books_route (db : List BookDoc) (kind q : Option String)
    (limit : Option Int) : Outcome (List BookDoc) :=
  let l := limit.getD 100
  if l < 1 || 200 < l then .httpError 422 "Input should be less than or equal to 200 and greater than or equal to 1"
  else .ok (list_books db kind q l.toNat)

/-- Handler of GET /shelves (list_shelves, src/main.py 151-155). -/
def list_shelves (db : List ShelfDoc) (user_id : Option String) : List ShelfDoc :=
  get_documents db (fun s => optEq user_id s.user_id) 200

/-- Handler of GET /progress (get_progress, src/main.py 173-181): the two
filters are AND-combined. -/
def get_progress (db : List ProgressDoc) (user_id book_id : Option String) :
    List ProgressDoc :=
  get_documents db (fun p => optEq user_id p.user_id && optEq book_id p.book_id) 500

/-- Handler of GET /reviews (list_reviews, src/main.py 208-212). -/
def list_reviews (db : List ReviewDoc) (book_id : Option String) : List ReviewDoc :=
  get_documents db (fun r => optEq book_id r.book_id) 200

/-- Handler of GET /quotes (list_quotes, src/main.py 222-230). -/
def list_quotes (db : List QuoteDoc) (user_id book_id : Option String) :
    List QuoteDoc :=
  get_documents db (fun r => optEq user_id r.user_id && optEq book_id r.book_id) 200

/-- Handler of GET /posts (list_posts, src/main.py 252-256). -/
def list_posts (db : List PostDoc) (club_id : Option String) : List PostDoc :=
  get_documents db (fun r => optEq club_id r.club_id) 500

/-! ### GET /recommendations (src/main.py 260-268): filter by genre
membership when a truthy genre is given, sort by created_at descending, take
12.  The database sort is modelled by an insertion sort on the created_at
key. -/

/-- Membership filter of a truthy genre parameter: the Mongo filter
genres: g on an array field matches documents whose array contains g. -/
def genreFilt (genre : Option String) (b : BookDoc) : Bool :=
  match genre with
  | none => true
  | some g => if g.isEmpty then true else b.genres.contains g

/-- Insertion into a list sorted by created_at descending. -/
def insertDesc (b : BookDoc) : List BookDoc → List BookDoc
  | [] => [b]
  | c :: cs => if c.created_at ≤ b.created_at then b :: c :: cs else c :: insertDesc b cs

/-- Sort by created_at descending (most recently created first). -/
def sortDesc : List BookDoc → List BookDoc
  | [] => []
  | b :: bs => insertDesc b (sortDesc bs)

/-- Boolean check that a list of books is ordered by created_at
descending. -/
def sortedDesc : List BookDoc → Bool
  | [] => true
  | [_] => true
  | a :: b :: r => (b.created_at ≤ a.created_at) && sortedDesc (b :: r)

/-- Handler of GET /recommendations (recommendations, src/main.py 260-268):
the user_id parameter is accepted but unused by the handler body. -/
def recommendations (db : List BookDoc) (genre : Option String) : List BookDoc :=
  (sortDesc (db.filter (genreFilt genre))).take 12

/-! ### Output projection to_public (src/main.py 28-38), over a generic
Python dictionary document. -/

/-- Runtime value stored in a document field, as far as to_public can
distinguish them: only datetime-like values respond to isoformat (carrying
their ISO-8601 rendering), and only the ObjectId under _id is turned into a
string. -/
inductive PyVal where
  | vNull
  | vStr (s : String)
  | vInt (n : Int)
  | vBool (b : Bool)
  | vList (xs : List PyVal)
  | vDateTime (iso : String)
  | vOid (hex : String)

/-- Conversion applied to every field value: a value with an isoformat
attribute (a date or datetime) is replaced by its ISO-8601 string, every
other value is left alone. -/
def convVal : PyVal → PyVal
  | .vDateTime s => .vStr s
  | v => v

/-- Rendering by str(), needed for the popped _id value. -/
def pyStr : PyVal → String
  | .vNull => "None"
  | .vStr s => s
  | .vInt n => toString n
  | .vBool b => if b then "True" else "False"
  | .vList _ => "[...]"
  | .vDateTime s => s
  | .vOid h => h

/-- Document as a Python dictionary: insertion-ordered fields with unique
keys. -/
abbrev PyDoc := List (String × PyVal)

/-- Dictionary read d.get(k): first binding of the key, if any. -/
def dget (d : PyDoc) (k : String) : Option PyVal :=
  match List.find? (fun kv => kv.1 == k) d with
  | some kv => some kv.2
  | none => none

/-- Dictionary removal d.pop(k): every binding of the key is dropped (a
Python dictionary holds at most one). -/
def dpop (d : PyDoc) (k : String) : PyDoc :=
  List.filter (fun kv => kv.1 != k) d

/-- Dictionary write d[k] = v: an existing binding (a Python dictionary has
at most one per key) is overwritten in place, otherwise the binding is
appended at the end. -/
def dset : PyDoc → String → PyVal → PyDoc
  | [], k, v => [(k, v)]
  | (a, w) :: d, k, v => if a == k then (k, v) :: d else (a, w) :: dset d k v

/-- Per-field datetime conversion pass of to_public. -/
def convDatetimes (d : PyDoc) : PyDoc :=
  List.map (fun kv => (kv.1, convVal kv.2)) d

/-- Output projection to_public (src/main.py 28-38): falsy documents are
returned unchanged; a non-null _id is popped and re-added under id as its
string form; every datetime-valued field is rendered as ISO-8601 text. -/
def to_public (doc : PyDoc) : PyDoc :=
  if List.isEmpty doc then doc
  else
    let d :=
      match dget doc "_id" with
      | some .vNull => doc
      | some v => dset (dpop doc "_id") "id" (.vStr (pyStr v))
      | none => doc
    convDatetimes d

/-! ### Concrete documents used by witnesses and counterexamples. -/

/-- Fixed 24-character hexadecimal id, syntactically valid for ObjectId. -/
def hexA : String := "aaaaaaaaaaaaaaaaaaaaaaaa"

/-- Second fixed valid 24-character hexadecimal id. -/
def hexB : String := "bbbbbbbbbbbbbbbbbbbbbbbb"

/-- Sample stored book. -/
def demoBook : BookDoc :=
  { bid := hexA, title := "Dragon Path", creator := "A. Writer", kind := "book",
    cover_url := none, description := none, genres := ["fantasy"], moods := [],
    total_pages := some 300, tags := [], created_at := 7 }

/-- Sample stored book with a different title and no shared genre. -/
def oceanBook : BookDoc :=
  { bid := hexB, title := "Ocean Tales", creator := "B. Writer", kind := "book",
    cover_url := none, description := none, genres := ["sea"], moods := [],
    total_pages := some 120, tags := [], created_at := 3 }

/-- Sample stored progress record. -/
def demoProgress : ProgressDoc :=
  { prid := hexA, user_id := "u1", book_id := "b1", current_page := 0,
    total_pages := none, started_on := none, finished_on := none,
    status := "reading", created_at := 5 }

/-- Sample stored shelf whose book_ids already holds a duplicate, as a POST
/shelves request with a duplicated list produces. -/
def demoShelfDup : ShelfDoc :=
  { sid := hexA, user_id := "u1", name := "To Read", description := none,
    book_ids := ["b1", "b1"], created_at := 3 }

/-- Sample creation payload for POST /progress with defaults applied. -/
def demoProgressIn : ReadingProgressIn :=
  { user_id := "u1", book_id := "b1" }

/-- Sample creation payload for POST /books. -/
def demoBookIn : BookIn :=
  { title := "Dragon Path", creator := "A. Writer", kind := "book" }

/-! ### C1 — id validation happens before any database access, except that a
PATCH with an empty update payload returns before the id is even parsed. -/

/-- C1 (amended): for GET /books/:id, DELETE /books/:id, POST
/shelves/:id/add, and for both PATCH routes whenever the update payload has
at least one non-null field, a syntactically invalid id makes the request
fail with HTTP 400 and the database is neither read nor written.  (The
original claim also covered a PATCH with an empty payload, which instead
short-circuits to updated 0 before the id is parsed.) -/
theorem invalid_id_yields_400_without_db (id : String)
    (h : isValidOid id = false)
    (dbB : List BookDoc) (dbS : List ShelfDoc) (dbP : List ProgressDoc)
    (pb : BookUpdate) (pp : ProgressUpdate) (book_id : String)
    (hpb : pb.isEmptyUpd = false) (hpp : pp.isEmptyUpd = false) :
    get_book id dbB = ⟨.httpError 400 "Invalid id", dbB, false⟩ ∧
    update_book id pb dbB = ⟨.httpError 400 "Invalid id", dbB, false⟩ ∧
    delete_book id dbB = ⟨.httpError 400 "Invalid id", dbB, false⟩ ∧
    shelf_add_book id book_id dbS = ⟨.httpError 400 "Invalid id", dbS, false⟩ ∧
    update_progress id pp dbP = ⟨.httpError 400 "Invalid id", dbP, false⟩ := by
  refine ⟨?_, ?_, ?_, ?_, ?_⟩ <;>
    simp [get_book, update_book, delete_book, shelf_add_book, update_progress,
      h, hpb, hpp]

/-- Witness for C1 at a concrete invalid id and concrete non-empty update
payloads. -/
theorem invalid_id_yields_400_without_db_instance :
    get_book "zzz" [demoBook] = ⟨.httpError 400 "Invalid id", [demoBook], false⟩ ∧
    update_book "zzz" { title := some "t" } [demoBook] =
      ⟨.httpError 400 "Invalid id", [demoBook], false⟩ ∧
    delete_book "zzz" [demoBook] = ⟨.httpError 400 "Invalid id", [demoBook], false⟩ ∧
    shelf_add_book "zzz" "b1" [demoShelfDup] =
      ⟨.httpError 400 "Invalid id", [demoShelfDup], false⟩ ∧
    update_progress "zzz" { status := some "paused" } [demoProgress] =
      ⟨.httpError 400 "Invalid id", [demoProgress], false⟩ :=
  invalid_id_yields_400_without_db "zzz" (by decide) [demoBook] [demoShelfDup]
    [demoProgress] { title := some "t" } { status := some "paused" } "b1" rfl rfl

/-- Counterexample to C1 as stated: a PATCH whose payload is empty succeeds
with updated 0 on a syntactically invalid id instead of failing with 400,
because the handler returns before calling the id parser. -/
theorem empty_patch_skips_id_validation :
    isValidOid "zzz" = false ∧
    update_book "zzz" {} [demoBook] = ⟨.ok 0, [demoBook], false⟩ ∧
    update_progress "zzz" {} [demoProgress] = ⟨.ok 0, [demoProgress], false⟩ :=
  ⟨by decide, rfl, rfl⟩

/-! ### C4 — an update whose payload has no recognized field is a no-op. -/

/-- C4: a PATCH /books/:id or PATCH /progress/:id request whose payload has
every update field absent or null returns updated 0 with HTTP 200, touches
no stored document, and performs no database call at all. -/
theorem empty_update_is_noop (book_id progress_id : String)
    (dbB : List BookDoc) (dbP : List ProgressDoc)
    (pb : BookUpdate) (pp : ProgressUpdate)
    (hb : pb.isEmptyUpd = true) (hp : pp.isEmptyUpd = true) :
    update_book book_id pb dbB = ⟨.ok 0, dbB, false⟩ ∧
    update_progress progress_id pp dbP = ⟨.ok 0, dbP, false⟩ := by
  constructor
  · simp [update_book, hb]
  · simp [update_progress, hp]

/-- Witness for C4 at concrete ids, databases and the all-absent payloads. -/
theorem empty_update_is_noop_instance :
    update_book hexA {} [demoBook] = ⟨.ok 0, [demoBook], false⟩ ∧
    update_progress hexA {} [demoProgress] = ⟨.ok 0, [demoProgress], false⟩ :=
  empty_update_is_noop hexA hexA [demoBook] [demoProgress] {} {} rfl rfl

/-! ### C3 — numeric bounds hold at creation only; the update schemas
declare none, so out-of-bounds values pass and are applied. -/

/-- C3: the update payload schemas carry no numeric bounds, so a PATCH
/progress/:id setting current_page to any negative integer, or total_pages
to 0, and a PATCH /books/:id setting total_pages to 0, pass validation and
the out-of-bounds value is written to the stored document, while the same
values are rejected by the creation schemas. -/
theorem update_schemas_skip_numeric_bounds (n : Int) (hn : n < 0) :
    progressUpdateValid { current_page := some n } = true ∧
    progressUpdateValid { total_pages := some 0 } = true ∧
    bookUpdateValid { total_pages := some 0 } = true ∧
    update_progress hexA { current_page := some n } [demoProgress] =
      ⟨.ok 1, [{ demoProgress with current_page := n }], true⟩ ∧
    update_book hexA { total_pages := some 0 } [demoBook] =
      ⟨.ok 1, [{ demoBook with total_pages := some 0 }], true⟩ ∧
    progressInValid { demoProgressIn with current_page := n } = false ∧
    progressInValid { demoProgressIn with total_pages := some 0 } = false ∧
    bookInValid { demoBookIn with total_pages := some 0 } = false := by
  refine ⟨rfl, rfl, rfl, ?_, by decide, ?_, by decide, by decide⟩
  · have hguard : (ProgressDoc.prid demoProgress == oidCanon hexA) = true := by decide
    have happ : applyProgressUpdate { current_page := some n } demoProgress
        = { demoProgress with current_page := n } := rfl
    have hne : ({ demoProgress with current_page := n } : ProgressDoc) ≠ demoProgress := by
      intro hEq
      have h0 := congrArg ProgressDoc.current_page hEq
      simp only [demoProgress] at h0
      omega
    have hval : isValidOid hexA = true := by decide
    simp [update_progress, ProgressUpdate.isEmptyUpd, hval, updateOneBy, hguard, happ, hne]
  · simp only [progressInValid, demoProgressIn]
    simp only [Bool.and_eq_false_iff, decide_eq_false_iff_not, not_le]
    left
    omega

/-- Witness for C3 at the concrete negative value -5. -/
theorem update_schemas_skip_numeric_bounds_instance :
    progressUpdateValid { current_page := some (-5) } = true ∧
    progressUpdateValid { total_pages := some 0 } = true ∧
    bookUpdateValid { total_pages := some 0 } = true ∧
    update_progress hexA { current_page := some (-5) } [demoProgress] =
      ⟨.ok 1, [{ demoProgress with current_page := -5 }], true⟩ ∧
    update_book hexA { total_pages := some 0 } [demoBook] =
      ⟨.ok 1, [{ demoBook with total_pages := some 0 }], true⟩ ∧
    progressInValid { demoProgressIn with current_page := -5 } = false ∧
    progressInValid { demoProgressIn with total_pages := some 0 } = false ∧
    bookInValid { demoBookIn with total_pages := some 0 } = false :=
  update_schemas_skip_numeric_bounds (-5) (by decide)

/-! ### Behaviour of update_one on a located document. -/

/-- Effect of update_one when the first matching document is a fixed point of
the update: the collection is returned unchanged with matched 1 and
modified 0. -/
theorem updateOneBy_of_find_fixed [DecidableEq α] (idOf : α → String)
    (k : String) (f : α → α) (l : List α) (b : α)
    (hfind : l.find? (fun x => idOf x == k) = some b) (hfix : f b = b) :
    updateOneBy idOf k f l = (l, 1, 0) := by
  induction l with
  | nil => simp at hfind
  | cons x xs ih =>
    by_cases hx : (idOf x == k) = true
    · rw [List.find?_cons_of_pos (p := fun y => idOf y == k) xs hx] at hfind
      obtain rfl : x = b := by injection hfind
      simp [updateOneBy, hx, hfix]
    · rw [List.find?_cons_of_neg (p := fun y => idOf y == k) xs hx] at hfind
      simp [updateOneBy, hx, ih hfind]

/-- Effect of update_one on the first matching document for an update that
preserves the id: the operation matches it once and the updated document is
what a later find_one at the same id sees. -/
theorem updateOneBy_of_find [DecidableEq α] (idOf : α → String) (k : String)
    (f : α → α) (hpre : ∀ a, idOf (f a) = idOf a) (l : List α) (b : α)
    (hfind : l.find? (fun x => idOf x == k) = some b) :
    (updateOneBy idOf k f l).2.1 = 1 ∧
    (updateOneBy idOf k f l).1.find? (fun x => idOf x == k) = some (f b) := by
  induction l with
  | nil => simp at hfind
  | cons x xs ih =>
    by_cases hx : (idOf x == k) = true
    · rw [List.find?_cons_of_pos (p := fun y => idOf y == k) xs hx] at hfind
      obtain rfl : x = b := by injection hfind
      have hstep : updateOneBy idOf k f (x :: xs) =
          (f x :: xs, 1, if f x = x then 0 else 1) := by
        simp [updateOneBy, hx]
      have hx' : (idOf (f x) == k) = true := by rw [hpre]; exact hx
      rw [hstep]
      exact ⟨rfl, List.find?_cons_of_pos (p := fun y => idOf y == k) xs hx'⟩
    · rw [List.find?_cons_of_neg (p := fun y => idOf y == k) xs hx] at hfind
      obtain ⟨ih1, ih2⟩ := ih hfind
      have hstep : updateOneBy idOf k f (x :: xs) =
          (x :: (updateOneBy idOf k f xs).1, (updateOneBy idOf k f xs).2.1,
            (updateOneBy idOf k f xs).2.2) := by
        simp [updateOneBy, hx]
      rw [hstep]
      refine ⟨ih1, ?_⟩
      rw [List.find?_cons_of_neg (p := fun y => idOf y == k) _ hx]
      exact ih2

/-! ### C10 — the updated count reports modified documents, not matched
ones. -/

/-- C10: a PATCH against an existing document whose non-empty payload only
restates the stored values matches the document but modifies nothing, so the
route answers HTTP 200 with body updated 0 — the same body the empty-payload
no-op produces — rather than 404, for both the book and the progress
route. -/
theorem updated_counts_modified_documents (book_id progress_id : String)
    (hb : isValidOid book_id = true) (hp : isValidOid progress_id = true)
    (dbB : List BookDoc) (b : BookDoc) (pb : BookUpdate)
    (hfb : dbB.find? (fun x => x.bid == oidCanon book_id) = some b)
    (hfixb : applyBookUpdate pb b = b) (hneb : pb.isEmptyUpd = false)
    (dbP : List ProgressDoc) (p : ProgressDoc) (pp : ProgressUpdate)
    (hfp : dbP.find? (fun x => x.prid == oidCanon progress_id) = some p)
    (hfixp : applyProgressUpdate pp p = p) (hnep : pp.isEmptyUpd = false) :
    update_book book_id pb dbB = ⟨.ok 0, dbB, true⟩ ∧
    (update_book book_id ({} : BookUpdate) dbB).resp = .ok 0 ∧
    update_progress progress_id pp dbP = ⟨.ok 0, dbP, true⟩ ∧
    (update_progress progress_id ({} : ProgressUpdate) dbP).resp = .ok 0 := by
  have h1 := updateOneBy_of_find_fixed BookDoc.bid (oidCanon book_id)
    (applyBookUpdate pb) dbB b hfb hfixb
  have h2 := updateOneBy_of_find_fixed ProgressDoc.prid (oidCanon progress_id)
    (applyProgressUpdate pp) dbP p hfp hfixp
  refine ⟨?_, rfl, ?_, rfl⟩
  · simp [update_book, hneb, hb, h1]
  · simp [update_progress, hnep, hp, h2]

/-- Witness for C10: restating the stored title (and the stored status)
yields updated 0 with HTTP 200 on both routes. -/
theorem updated_counts_modified_documents_instance :
    update_book hexA { title := some "Dragon Path" } [demoBook] =
      ⟨.ok 0, [demoBook], true⟩ ∧
    (update_book hexA ({} : BookUpdate) [demoBook]).resp = .ok 0 ∧
    update_progress hexA { status := some "reading" } [demoProgress] =
      ⟨.ok 0, [demoProgress], true⟩ ∧
    (update_progress hexA ({} : ProgressUpdate) [demoProgress]).resp = .ok 0 :=
  updated_counts_modified_documents hexA hexA (by decide) (by decide)
    [demoBook] demoBook { title := some "Dragon Path" } (by decide) (by decide) rfl
    [demoProgress] demoProgress { status := some "reading" } (by decide) (by decide) rfl

/-! ### C5 — set semantics of the shelf add-book operation. -/

/-- Stability of the shelf id under the $addToSet update. -/
theorem addBook_sid (book_id : String) (s : ShelfDoc) :
    (addBookToShelf book_id s).sid = s.sid := by
  unfold addBookToShelf
  split <;> rfl

/-- Presence of the added book id after the $addToSet update. -/
theorem addBook_mem (book_id : String) (s : ShelfDoc) :
    book_id ∈ (addBookToShelf book_id s).book_ids := by
  unfold addBookToShelf
  by_cases h : book_id ∈ s.book_ids
  · simp [h]
  · simp [h]

/-- Adding a book id that is already on the shelf changes nothing. -/
theorem addBook_already_mem (book_id : String) (s : ShelfDoc)
    (h : book_id ∈ s.book_ids) : addBookToShelf book_id s = s := by
  simp [addBookToShelf, h]

/-- Idempotence of the $addToSet update on a shelf. -/
theorem addBook_idem (book_id : String) (s : ShelfDoc) :
    addBookToShelf book_id (addBookToShelf book_id s) = addBookToShelf book_id s :=
  addBook_already_mem _ _ (addBook_mem _ _)

/-- Occurrence count after the $addToSet update, for a shelf that held the
book id at most once. -/
theorem addBook_count (book_id : String) (s : ShelfDoc)
    (h : s.book_ids.count book_id ≤ 1) :
    (addBookToShelf book_id s).book_ids.count book_id = 1 := by
  by_cases hm : book_id ∈ s.book_ids
  · rw [addBook_already_mem _ _ hm]
    have h1 : 0 < s.book_ids.count book_id := List.count_pos_iff.mpr hm
    omega
  · have h0 : s.book_ids.count book_id = 0 := List.count_eq_zero.mpr hm
    simp [addBookToShelf, hm, List.count_append, h0]

/-- C5 (amended): adding a book id to an existing shelf is idempotent and
never introduces a duplicate: a repeated add leaves the shelf as it is, and
when the shelf held the id at most once beforehand — in particular whenever
its book_ids list is duplicate-free — the add operation leaves exactly one
occurrence.  (The original claim promised exactly one occurrence for every
existing shelf, which fails when book_ids already held the id twice: the
add leaves both copies in place.) -/
theorem shelf_add_set_semantics (shelf_id book_id : String)
    (hsid : isValidOid shelf_id = true) (db : List ShelfDoc) (s : ShelfDoc)
    (hf : db.find? (fun x => x.sid == oidCanon shelf_id) = some s)
    (hcount : s.book_ids.count book_id ≤ 1) :
    (shelf_add_book shelf_id book_id db).resp = .ok true ∧
    ((shelf_add_book shelf_id book_id db).db).find?
        (fun x => x.sid == oidCanon shelf_id) = some (addBookToShelf book_id s) ∧
    (addBookToShelf book_id s).book_ids.count book_id = 1 ∧
    (book_id ∈ s.book_ids → addBookToShelf book_id s = s) ∧
    (shelf_add_book shelf_id book_id ((shelf_add_book shelf_id book_id db).db)).db
      = (shelf_add_book shelf_id book_id db).db := by
  have hpre : ∀ a, (addBookToShelf book_id a).sid = a.sid := addBook_sid book_id
  obtain ⟨hm, hfind⟩ := updateOneBy_of_find ShelfDoc.sid (oidCanon shelf_id)
    (addBookToShelf book_id) hpre db s hf
  have hroute : shelf_add_book shelf_id book_id db =
      ⟨.ok true, (updateOneBy ShelfDoc.sid (oidCanon shelf_id)
        (addBookToShelf book_id) db).1, true⟩ := by
    simp [shelf_add_book, hsid, hm]
  refine ⟨by rw [hroute], by rw [hroute]; exact hfind, addBook_count _ _ hcount,
    addBook_already_mem book_id s, ?_⟩
  have h2 := updateOneBy_of_find_fixed ShelfDoc.sid (oidCanon shelf_id)
    (addBookToShelf book_id) ((shelf_add_book shelf_id book_id db).db)
    (addBookToShelf book_id s) (by rw [hroute]; exact hfind)
    (addBook_idem book_id s)
  rw [hroute] at h2
  rw [hroute]
  simp [shelf_add_book, hsid, h2]

/-- Witness for C5: a duplicate-free shelf receives the same book id twice
and keeps exactly one occurrence. -/
theorem shelf_add_set_semantics_instance :
    (shelf_add_book hexA "b9" [demoShelfDup]).resp = .ok true ∧
    ((shelf_add_book hexA "b9" [demoShelfDup]).db).find?
        (fun x => x.sid == oidCanon hexA) = some (addBookToShelf "b9" demoShelfDup) ∧
    (addBookToShelf "b9" demoShelfDup).book_ids.count "b9" = 1 ∧
    ("b9" ∈ demoShelfDup.book_ids → addBookToShelf "b9" demoShelfDup = demoShelfDup) ∧
    (shelf_add_book hexA "b9" ((shelf_add_book hexA "b9" [demoShelfDup]).db)).db
      = (shelf_add_book hexA "b9" [demoShelfDup]).db :=
  shelf_add_set_semantics hexA "b9" (by decide) [demoShelfDup] demoShelfDup
    (by decide) (by decide)

/-- Counterexample to C5 as stated: a shelf created with a duplicated
book_ids list keeps both copies after the add operation, so the add does not
leave exactly one occurrence for every existing shelf. -/
theorem shelf_add_keeps_preexisting_duplicates :
    isValidOid hexA = true ∧
    (shelf_add_book hexA "b1" [demoShelfDup]).db = [demoShelfDup] ∧
    demoShelfDup.book_ids.count "b1" = 2 :=
  ⟨by decide, by decide, by decide⟩

/-! ### C2 — bounds of the limit query parameter of GET /books. -/

/-- C2 (amended): a limit of 0 or 201 — any value outside [1, 200] — is
rejected by the framework validation of the declared Query(100, ge=1,
le=200) constraint with HTTP 422, the framework default for a request
validation error, not 400; limits 1 and 200 reach the handler and the
response holds at most that many books. -/
theorem limit_bounds_enforced (db : List BookDoc) (kind q : Option String) :
    (list_books_route db kind q (some 0)).statusOf = some 422 ∧
    (list_books_route db kind q (some 201)).statusOf = some 422 ∧
    list_books_route db kind q (some 1) = .ok (list_books db kind q 1) ∧
    (list_books db kind q 1).length ≤ 1 ∧
    list_books_route db kind q (some 200) = .ok (list_books db kind q 200) ∧
    (list_books db kind q 200).length ≤ 200 := by
  refine ⟨rfl, rfl, rfl, ?_, rfl, ?_⟩
  · simp only [list_books, get_documents]
    exact List.length_take_le _ _
  · simp only [list_books, get_documents]
    exact List.length_take_le _ _

/-- Counterexample to C2 as stated: the status code of the rejection of
limit 0 is the framework validation status 422, not 400. -/
theorem limit_zero_gives_422_not_400 :
    (list_books_route [] none none (some 0)).statusOf = some 422 ∧
    (list_books_route [] none none (some 0)).statusOf ≠ some 400 :=
  ⟨rfl, by decide⟩

/-! ### C9 — an empty-string filter value behaves as an absent filter. -/

/-- Emptiness test of the empty string, as a rewrite rule. -/
theorem emptyStr_isEmpty : ("" : String).isEmpty = true := rfl

/-- C9: on every list endpoint with an optional string filter, passing the
filter as the empty string produces exactly the result of omitting it,
because the handlers build their filter maps under Python truthiness. -/
theorem empty_string_filter_ignored
    (dbU : List UserDoc) (dbB : List BookDoc) (dbS : List ShelfDoc)
    (dbP : List ProgressDoc) (dbR : List ReviewDoc) (dbQ : List QuoteDoc)
    (dbPo : List PostDoc) (kind q : Option String) (limit : Nat)
    (user_id book_id : Option String) :
    list_users dbU (some "") = list_users dbU none ∧
    list_books dbB (some "") q limit = list_books dbB none q limit ∧
    list_books dbB kind (some "") limit = list_books dbB kind none limit ∧
    list_shelves dbS (some "") = list_shelves dbS none ∧
    get_progress dbP (some "") book_id = get_progress dbP none book_id ∧
    get_progress dbP user_id (some "") = get_progress dbP user_id none ∧
    list_reviews dbR (some "") = list_reviews dbR none ∧
    list_quotes dbQ (some "") book_id = list_quotes dbQ none book_id ∧
    list_quotes dbQ user_id (some "") = list_quotes dbQ user_id none ∧
    list_posts dbPo (some "") = list_posts dbPo none := by
  refine ⟨?_, ?_, ?_, ?_, ?_, ?_, ?_, ?_, ?_, ?_⟩ <;>
    simp [list_users, list_books, list_shelves, get_progress, list_reviews,
      list_quotes, list_posts, get_documents, optEq, optRegex, emptyStr_isEmpty]

/-! ### C6 — the recommendations endpoint. -/

/-- Membership through the insertion step of the created_at sort. -/
theorem mem_insertDesc {b c : BookDoc} {l : List BookDoc} :
    c ∈ insertDesc b l ↔ c = b ∨ c ∈ l := by
  induction l with
  | nil => simp [insertDesc]
  | cons d ds ih =>
    rw [insertDesc]
    by_cases h : d.created_at ≤ b.created_at
    · simp [h]
    · simp [h, ih]
      tauto

/-- Preservation of descending sortedness by the insertion step. -/
theorem pairwise_insertDesc (b : BookDoc) (l : List BookDoc)
    (h : l.Pairwise (fun x y => y.created_at ≤ x.created_at)) :
    (insertDesc b l).Pairwise (fun x y => y.created_at ≤ x.created_at) := by
  induction l with
  | nil => simp [insertDesc]
  | cons c cs ih =>
    rw [insertDesc]
    rcases List.pairwise_cons.mp h with ⟨hcs, hrest⟩
    by_cases hc : c.created_at ≤ b.created_at
    · rw [if_pos hc]
      refine List.pairwise_cons.mpr ⟨?_, h⟩
      intro y hy
      rcases List.mem_cons.mp hy with rfl | hy
      · exact hc
      · exact le_trans (hcs y hy) hc
    · rw [if_neg hc]
      refine List.pairwise_cons.mpr ⟨?_, ih hrest⟩
      intro y hy
      rcases mem_insertDesc.mp hy with rfl | hy
      · exact Nat.le_of_lt (Nat.lt_of_not_le hc)
      · exact hcs y hy

/-- Descending sortedness of the created_at sort. -/
theorem pairwise_sortDesc (l : List BookDoc) :
    (sortDesc l).Pairwise (fun x y => y.created_at ≤ x.created_at) := by
  induction l with
  | nil => simp [sortDesc]
  | cons b bs ih => exact pairwise_insertDesc b _ ih

/-- Membership through the created_at sort. -/
theorem mem_sortDesc {c : BookDoc} {l : List BookDoc} :
    c ∈ sortDesc l ↔ c ∈ l := by
  induction l with
  | nil => simp [sortDesc]
  | cons b bs ih =>
    show c ∈ insertDesc b (sortDesc bs) ↔ _
    rw [mem_insertDesc, ih]
    simp

/-- C6: on every database and optional genre filter, GET /recommendations
returns at most 12 books, every returned book contains the genre in its
genres list whenever a non-empty genre was given, and the result is ordered
by the server-assigned created_at timestamp descending. -/
theorem recommendations_bounded_filtered_sorted (db : List BookDoc)
    (genre : Option String) :
    (recommendations db genre).length ≤ 12 ∧
    ((recommendations db genre).all fun b =>
      match genre with
      | none => true
      | some g => g.isEmpty || b.genres.contains g) = true ∧
    (recommendations db genre).Pairwise (fun x y => y.created_at ≤ x.created_at) := by
  refine ⟨List.length_take_le _ _, ?_, ?_⟩
  · rw [List.all_eq_true]
    intro b hb
    have hb1 : b ∈ sortDesc (db.filter (genreFilt genre)) :=
      List.take_subset _ _ hb
    have hb2 : b ∈ db.filter (genreFilt genre) := mem_sortDesc.mp hb1
    have hb3 := (List.mem_filter.mp hb2).2
    cases genre with
    | none => rfl
    | some g =>
      by_cases hg : g.isEmpty
      · simp [hg]
      · simp only [genreFilt, if_neg hg] at hb3
        simp only [List.all_eq_true] at *
        simp [hg]
        simpa using hb3
  · exact (pairwise_sortDesc _).sublist (List.take_sublist _ _)

/-! ### C7 — the q title filter is a regex search, which coincides with
case-insensitive substring search exactly on metacharacter-free queries. -/

/-- Unfolding of the prefix relation across a cons on both sides. -/
theorem cons_pre_cons {a b : Char} {l₁ l₂ : List Char} :
    (a :: l₁ <+: b :: l₂) ↔ a = b ∧ l₁ <+: l₂ := by
  constructor
  · rintro ⟨t, ht⟩
    injection ht with h1 h2
    exact ⟨h1, t, h2⟩
  · rintro ⟨rfl, t, ht⟩
    exact ⟨t, by rw [List.cons_append, ht]⟩

/-- Anchored match of a literal (dot-free) pattern is prefix of the lowered
subject. -/
theorem matchesAt_literal (q : List Char) (hq : ∀ c ∈ q, c ≠ '.') :
    ∀ s : List Char,
      (matchesAt (parseR q) s = true ↔ (q.map Char.toLower) <+: (s.map Char.toLower)) := by
  induction q with
  | nil =>
    intro s
    constructor
    · intro _
      exact ⟨s.map Char.toLower, rfl⟩
    · intro _
      rfl
  | cons c q ih =>
    intro s
    have hc : c ≠ '.' := hq c (List.mem_cons_self c q)
    have hq' : ∀ d ∈ q, d ≠ '.' := fun d hd => hq d (List.mem_cons_of_mem _ hd)
    cases s with
    | nil =>
      have hstep : matchesAt (parseR (c :: q)) [] = false := by
        simp only [parseR, List.map_cons]
        rw [if_neg hc]
        rfl
      rw [hstep]
      simp only [List.map_cons, List.map_nil]
      constructor
      · intro h
        simp at h
      · rintro ⟨t, ht⟩
        simp at ht
    | cons d s =>
      have hstep : matchesAt (parseR (c :: q)) (d :: s)
          = (atomMatch (RAtom.lit c) d && matchesAt (parseR q) s) := by
        simp only [parseR, List.map_cons]
        rw [if_neg hc]
        rfl
      rw [hstep, List.map_cons, List.map_cons, cons_pre_cons]
      rw [Bool.and_eq_true, ih hq' s]
      simp [atomMatch]

/-- Unanchored search of a literal (dot-free) pattern is infix of the
lowered subject. -/
theorem searchMatch_literal (q : List Char) (hq : ∀ c ∈ q, c ≠ '.') :
    ∀ s : List Char,
      (searchMatch (parseR q) s = true ↔ (q.map Char.toLower) <:+: (s.map Char.toLower)) := by
  intro s
  induction s with
  | nil =>
    rw [show searchMatch (parseR q) [] = matchesAt (parseR q) [] from rfl]
    rw [matchesAt_literal q hq []]
    simp only [List.map_nil]
    constructor
    · intro h
      exact h.isInfix
    · intro h
      have h0 : List.map Char.toLower q = [] := by simpa using h
      rw [h0]
  | cons d s ih =>
    rw [show searchMatch (parseR q) (d :: s)
        = (matchesAt (parseR q) (d :: s) || searchMatch (parseR q) s) from rfl]
    rw [List.map_cons, List.infix_cons_iff]
    simp only [Bool.or_eq_true]
    rw [matchesAt_literal q hq (d :: s), ih]
    simp only [List.map_cons]

/-- C7 (amended): when the database is not cut by the limit, a book appears
in the GET /books result for filter q exactly when the regex search matches
its title; for every query string free of regex metacharacters this is
case-insensitive contiguous-substring matching of the title.  (The original
claim asserted substring semantics for arbitrary query strings, but the
handler passes q to the database regex operator unescaped, so metacharacters
keep their regex meaning.) -/
theorem title_search_literal_substring (db : List BookDoc) (q : String)
    (limit : Nat) (b : BookDoc)
    (hq : q.toList.all (fun c => !(regexMeta.contains c)) = true)
    (hlen : db.length ≤ limit) :
    b ∈ list_books db none (some q) limit ↔
      b ∈ db ∧ (q.toList.map Char.toLower) <:+: (b.title.toList.map Char.toLower) := by
  have hnodot : ∀ c ∈ q.toList, c ≠ '.' := by
    intro c hc hdot
    rw [List.all_eq_true] at hq
    have h1 := hq c hc
    subst hdot
    simp [regexMeta] at h1
  have hfl : (db.filter fun x => optEq none x.kind && optRegex (some q) x.title).length ≤ limit :=
    le_trans (List.length_filter_le _ _) hlen
  rw [list_books, get_documents, List.take_of_length_le hfl, List.mem_filter]
  refine and_congr_right fun _ => ?_
  rw [show optEq none b.kind = true from rfl, Bool.true_and, optRegex]
  by_cases hqe : q.isEmpty = true
  · rw [if_pos hqe]
    have hq0 : q = "" := (String.isEmpty_iff q).mp hqe
    subst hq0
    simp
  · rw [if_neg hqe]
    exact searchMatch_literal q.toList hnodot b.title.toList

/-- Witness for C7: the query drag returns the book titled Dragon Path and
not the book titled Ocean Tales. -/
theorem title_search_literal_substring_instance :
    demoBook ∈ list_books [demoBook, oceanBook] none (some "drag") 100 ∧
    oceanBook ∉ list_books [demoBook, oceanBook] none (some "drag") 100 := by
  constructor
  · exact (title_search_literal_substring [demoBook, oceanBook] "drag" 100 demoBook
      (by decide) (by decide)).mpr ⟨by decide, by decide⟩
  · intro hmem
    have h2 := (title_search_literal_substring [demoBook, oceanBook] "drag" 100 oceanBook
      (by decide) (by decide)).mp hmem
    exact absurd h2.2 (by decide)

/-- Counterexample to C7 as stated: the query drag.n — not a substring of
any stored title — still returns the book titled Dragon Path, because the
unescaped dot matches any character. -/
theorem title_search_regex_metachar_mismatch :
    list_books [demoBook] none (some "drag.n") 100 = [demoBook] ∧
    ¬ (("drag.n".toList.map Char.toLower) <:+: ("Dragon Path".toList.map Char.toLower)) :=
  ⟨by decide, by decide⟩

/-! ### C8 — idempotence of the output projection to_public. -/

/-- Double application of the per-value datetime conversion. -/
theorem convVal_convVal (v : PyVal) : convVal (convVal v) = convVal v := by
  cases v <;> rfl

/-- Double application of the per-field conversion pass. -/
theorem convDatetimes_convDatetimes (d : PyDoc) :
    convDatetimes (convDatetimes d) = convDatetimes d := by
  induction d with
  | nil => rfl
  | cons kv d ih =>
    show (kv.1, convVal (convVal kv.2)) :: convDatetimes (convDatetimes d)
        = (kv.1, convVal kv.2) :: convDatetimes d
    rw [convVal_convVal, ih]

/-- Dictionary read across a cons cell. -/
theorem dget_cons (a : String) (v : PyVal) (d : PyDoc) (k : String) :
    dget ((a, v) :: d) k = if a == k then some v else dget d k := by
  unfold dget
  by_cases h : (a == k) = true
  · rw [List.find?_cons_of_pos (p := fun y : String × PyVal => y.1 == k) _ h, if_pos h]
  · rw [List.find?_cons_of_neg (p := fun y : String × PyVal => y.1 == k) _ h, if_neg h]

/-- Reads across the conversion pass return the converted value. -/
theorem dget_convDatetimes (d : PyDoc) (k : String) :
    dget (convDatetimes d) k = (dget d k).map convVal := by
  induction d with
  | nil => rfl
  | cons x d ih =>
    obtain ⟨a, v⟩ := x
    rw [show convDatetimes ((a, v) :: d) = (a, convVal v) :: convDatetimes d from rfl]
    rw [dget_cons, dget_cons]
    by_cases h : (a == k) = true
    · rw [if_pos h, if_pos h]
      rfl
    · rw [if_neg h, if_neg h]
      exact ih

/-- A popped key reads as absent. -/
theorem dget_dpop_self (d : PyDoc) (k : String) : dget (dpop d k) k = none := by
  induction d with
  | nil => rfl
  | cons x d ih =>
    obtain ⟨a, v⟩ := x
    rw [dpop, List.filter_cons]
    by_cases h : (a == k) = true
    · simp only [bne, h, Bool.not_true, Bool.false_eq_true, if_false]
      exact ih
    · simp only [bne, h, Bool.not_false, if_true]
      rw [dget_cons, if_neg h]
      exact ih

/-- Reads of another key pass through a dset write. -/
theorem dget_dset_ne (d : PyDoc) (k k' : String) (v : PyVal)
    (h : (k == k') = false) :
    dget (dset d k v) k' = dget d k' := by
  induction d with
  | nil =>
    show dget [(k, v)] k' = dget [] k'
    rw [dget_cons, if_neg (by simp [h])]
  | cons x d ih =>
    obtain ⟨a, w⟩ := x
    show dget (if a == k then (k, v) :: d else (a, w) :: dset d k v) k' = _
    by_cases hx : (a == k) = true
    · rw [if_pos hx, dget_cons, dget_cons]
      have hak : a = k := by simpa using hx
      subst hak
      rw [if_neg (by simp [h]), if_neg (by simp [h])]
    · rw [if_neg hx, dget_cons, dget_cons]
      by_cases hy : (a == k') = true
      · rw [if_pos hy, if_pos hy]
      · rw [if_neg hy, if_neg hy]
        exact ih

/-- A dset write never empties the dictionary. -/
theorem dset_ne_nil (d : PyDoc) (k : String) (v : PyVal) : dset d k v ≠ [] := by
  cases d with
  | nil => simp [dset]
  | cons x d =>
    obtain ⟨a, w⟩ := x
    show (if a == k then (k, v) :: d else (a, w) :: dset d k v) ≠ []
    by_cases hx : (a == k) = true
    · rw [if_pos hx]
      simp
    · rw [if_neg hx]
      simp

/-- The conversion pass never empties the dictionary. -/
theorem convDatetimes_ne_nil (d : PyDoc) (h : d ≠ []) : convDatetimes d ≠ [] :=
  fun hmap => h (List.map_eq_nil_iff.mp hmap)

/-- Emptiness check failure for a provably non-nil dictionary. -/
theorem isEmpty_false_of_ne_nil {l : PyDoc} (h : l ≠ []) :
    ¬ (List.isEmpty l = true) :=
  fun he => h (by simpa using he)

/-- Reduction of to_public on a document whose _id is absent or null. -/
theorem to_public_eq_plain (doc : PyDoc) (hdoc : ¬ (List.isEmpty doc = true))
    (hid : dget doc "_id" = none ∨ dget doc "_id" = some PyVal.vNull) :
    to_public doc = convDatetimes doc := by
  unfold to_public
  rcases hid with h | h
  · rw [if_neg hdoc, h]
  · rw [if_neg hdoc, h]

/-- Reduction of to_public on a document with a non-null _id. -/
theorem to_public_eq_transform (doc : PyDoc) (v : PyVal)
    (hdoc : ¬ (List.isEmpty doc = true)) (hid : dget doc "_id" = some v)
    (hv : v ≠ PyVal.vNull) :
    to_public doc = convDatetimes (dset (dpop doc "_id") "id" (.vStr (pyStr v))) := by
  unfold to_public
  rw [if_neg hdoc, hid]
  cases v with
  | vNull => exact absurd rfl hv
  | vStr s => rfl
  | vInt n => rfl
  | vBool b => rfl
  | vList xs => rfl
  | vDateTime s => rfl
  | vOid h => rfl

/-- Projection of an already converted document with no live _id field. -/
theorem to_public_of_plain (doc : PyDoc) (hdoc : doc ≠ [])
    (hid : dget doc "_id" = none ∨ dget doc "_id" = some PyVal.vNull) :
    to_public (convDatetimes doc) = convDatetimes doc := by
  have hne : convDatetimes doc ≠ [] := convDatetimes_ne_nil _ hdoc
  have hplain : to_public (convDatetimes doc) = convDatetimes (convDatetimes doc) := by
    refine to_public_eq_plain _ (isEmpty_false_of_ne_nil hne) ?_
    rcases hid with h | h
    · left
      rw [dget_convDatetimes, h]
      rfl
    · right
      rw [dget_convDatetimes, h]
      rfl
  rw [hplain]
  exact convDatetimes_convDatetimes doc

/-- Projection of an already projected document from the transform path. -/
theorem to_public_of_transform (doc : PyDoc) (v : PyVal) :
    to_public (convDatetimes (dset (dpop doc "_id") "id" (.vStr (pyStr v))))
      = convDatetimes (dset (dpop doc "_id") "id" (.vStr (pyStr v))) := by
  have hr_ne : convDatetimes (dset (dpop doc "_id") "id" (.vStr (pyStr v))) ≠ [] :=
    convDatetimes_ne_nil _ (dset_ne_nil _ _ _)
  have hid2 : dget (convDatetimes (dset (dpop doc "_id") "id" (.vStr (pyStr v)))) "_id"
      = none := by
    rw [dget_convDatetimes, dget_dset_ne _ _ _ _ (by decide), dget_dpop_self]
    rfl
  have hplain := to_public_eq_plain _ (isEmpty_false_of_ne_nil hr_ne) (Or.inl hid2)
  rw [hplain]
  exact convDatetimes_convDatetimes _

/-- C8: the output projection to_public is idempotent on every document —
after one application the _id field is gone (re-added under id as a string)
and every datetime field has become its ISO string, so a second application
changes nothing. -/
theorem to_public_idempotent (doc : PyDoc) :
    to_public (to_public doc) = to_public doc := by
  by_cases hdoc : List.isEmpty doc = true
  · have h1 : to_public doc = doc := by
      unfold to_public
      rw [if_pos hdoc]
    rw [h1, h1]
  · have hne : doc ≠ [] := fun h => hdoc (by rw [h]; rfl)
    cases hid : dget doc "_id" with
    | none =>
      rw [to_public_eq_plain doc hdoc (Or.inl hid)]
      exact to_public_of_plain doc hne (Or.inl hid)
    | some v =>
      by_cases hv : v = PyVal.vNull
      · subst hv
        rw [to_public_eq_plain doc hdoc (Or.inr hid)]
        exact to_public_of_plain doc hne (Or.inr hid)
      · rw [to_public_eq_transform doc v hdoc hid hv]
        exact to_public_of_transform doc v

end Readverse
